import Mathlib

/-!
# Conversational memory subsystem — shallow embedding

A shallow embedding of `src/memory.py` (class `ChatMemory`), `src/config.py`
(memory/LLM constants) and the relational layout of `src/database.py` /
`src/setup_db.py` for the Broadway Pizza chatbot.

Modelling conventions:

* The three tables `chat_sessions(session_id PK, user_id)`,
  `chat_messages(id PK, session_id, role, content, timestamp)` and
  `chat_summaries(session_id PK, summary, last_updated)` are lists of rows.
  `DB.messages` is kept in insertion order, which — the log being append-only
  with `timestamp DEFAULT CURRENT_TIMESTAMP` and a monotonic rowid — is the
  chronological order `(timestamp, id)`.  `ORDER BY timestamp ASC` is the list
  itself, `ORDER BY timestamp DESC` is its reverse.  Timestamps are `Nat`.
* Every method of `ChatMemory` that wraps a storage access in
  `try ... except DatabaseError` takes an explicit `fail : Bool` argument that
  abstracts "the underlying query raised `DatabaseError`"; the branch taken on
  `fail = true` is the `except` branch of the source.
* Methods whose Python body can also `raise` (the retry-wrapped summarization
  call) return `DB × Option String`: the final store state and
  `some errorMessage` when an exception propagates out of the method,
  `none` when the method returns normally.
* The external Gemini call `model.generate_content` is an oracle
  `api : String → List ChatMsg → Nat → Except String (Option String)`:
  for a given `(current_summary, messages_to_summarize, attempt)` it either
  raises (`Except.error e`), returns a response whose `.text` is `None`
  (`Except.ok none`), or returns text (`Except.ok (some t)`).
  `time.sleep` is modelled by recording the slept delays (in seconds, `ℚ`).
* Python truthiness on strings (`x or default`, `if summary:`) tests for the
  empty string, and is modelled as such.
-/

/-- A row of `chat_messages` (columns the memory code reads/writes). -/
structure MsgRow where
  sid : String
  role : String
  content : String
deriving DecidableEq, Repr

/-- A `{"role": ..., "content": ...}` dict as returned by the history queries. -/
structure ChatMsg where
  role : String
  content : String
deriving DecidableEq, Repr

/-- A row of `chat_summaries`. -/
structure SumRow where
  sid : String
  summary : String
  last_updated : Nat
deriving DecidableEq, Repr

/-- A row of `chat_sessions`. -/
structure SessRow where
  sid : String
  user_id : Option String
deriving DecidableEq, Repr

/-- The relational store: the three tables the memory subsystem touches. -/
structure DB where
  sessions : List SessRow
  messages : List MsgRow
  summaries : List SumRow
deriving DecidableEq, Repr

/-- A `{"role": ..., "parts": [...]}` entry of the Gemini context window. -/
structure CtxMsg where
  role : String
  parts : List String
deriving DecidableEq, Repr

/-- `config.MEMORY_BUFFER_SIZE` — recent messages kept raw. -/
def MEMORY_BUFFER_SIZE : Nat := 6

/-- `config.MEMORY_SUMMARY_THRESHOLD` — message count that triggers summarization. -/
def MEMORY_SUMMARY_THRESHOLD : Nat := 10

/-- `config.LLM_MAX_RETRIES`. -/
def LLM_MAX_RETRIES : Nat := 3

/-- `config.LLM_BASE_DELAY` (seconds). -/
def LLM_BASE_DELAY : ℚ := 1

/-- The rows of `chat_messages` belonging to one session, in chronological
(insertion) order: the result set of `WHERE session_id = ? ORDER BY timestamp ASC`. -/
def sessionMessages (db : DB) (sid : String) : List MsgRow :=
  db.messages.filter (fun m => m.sid == sid)

/-- Project a message row to the `{"role", "content"}` dict built from a query row. -/
def rowToChatMsg (m : MsgRow) : ChatMsg :=
  ⟨m.role, m.content⟩

/-- `ChatMemory.save_message(role, content)` (memory.py:99-110).
`INSERT INTO chat_messages ...` inside `try/except DatabaseError`: on a
storage failure the error is logged and the method returns normally; result is
`(new store state, propagated exception)` — the second component is always
`none` because the `except` clause does not re-raise. -/
def save_message (db : DB) (sid role content : String) (fail : Bool) :
    DB × Option String :=
  if fail then (db, none)
  else ({ db with messages := db.messages ++ [⟨sid, role, content⟩] }, none)

/-- `ChatMemory.get_recent_history(limit)` (memory.py:112-137).
`SELECT role, content ... ORDER BY timestamp DESC LIMIT ?`, then reversed in
Python to chronological order; `except DatabaseError` returns `[]`. -/
def get_recent_history (db : DB) (sid : String) (limit : Nat) (fail : Bool) :
    List ChatMsg :=
  if fail then []
  else
    let rows := ((sessionMessages db sid).reverse).take limit
    (rows.reverse).map rowToChatMsg

/-- `ChatMemory.get_all_history()` (memory.py:139-151).
`SELECT ... ORDER BY timestamp ASC`; `except DatabaseError` returns `[]`. -/
def get_all_history (db : DB) (sid : String) (fail : Bool) : List ChatMsg :=
  if fail then []
  else (sessionMessages db sid).map rowToChatMsg

/-- The summary rows joined to a session carrying the given `user_id`:
`chat_summaries cs JOIN chat_sessions s ON cs.session_id = s.session_id
WHERE s.user_id = ?` (sessions are keyed by `session_id`, so the join partner
is looked up with `find?`). -/
def identityGroupSummaries (db : DB) (u : String) : List SumRow :=
  db.summaries.filter (fun r =>
    match db.sessions.find? (fun s => s.sid == r.sid) with
    | some s => s.user_id == some u
    | none => false)

/-- `ORDER BY cs.last_updated DESC LIMIT 1` over a row list: a row carrying the
maximal `last_updated` (the earlier row is kept on a tie, a choice SQLite
leaves unspecified). -/
def latestSummary : List SumRow → Option SumRow
  | [] => none
  | r :: rs =>
    match latestSummary rs with
    | none => some r
    | some m => if r.last_updated < m.last_updated then some m else some r

/-- `ChatMemory.get_summary()` (memory.py:153-178).
If a `user_id` is known, the latest-updated summary across all of that user's
sessions is preferred; otherwise (or when the identity group has no summary
row) the session-local row is read. `except DatabaseError` returns `None`. -/
def get_summary (db : DB) (sid : String) (uid : Option String) (fail : Bool) :
    Option String :=
  if fail then none
  else
    let sessionLocal : Option String :=
      (db.summaries.find? (fun r => r.sid == sid)).map (fun r => r.summary)
    match uid with
    | some u =>
      match latestSummary (identityGroupSummaries db u) with
      | some row => some row.summary
      | none => sessionLocal
    | none => sessionLocal

/-- `INSERT ... ON CONFLICT(session_id) DO UPDATE SET ...` over the
`chat_summaries` list: replace the row keyed by `sid` if present, else append. -/
def upsertSummary (l : List SumRow) (sid text : String) (now : Nat) :
    List SumRow :=
  if l.any (fun r => r.sid == sid) then
    l.map (fun r => if r.sid == sid then ⟨sid, text, now⟩ else r)
  else l ++ [⟨sid, text, now⟩]

/-- `ChatMemory.update_summary(new_summary)` (memory.py:180-197).
Atomic create-or-replace with `last_updated = CURRENT_TIMESTAMP` (the `now`
argument); `except DatabaseError` is logged and swallowed. -/
def update_summary (db : DB) (sid new_summary : String) (now : Nat)
    (fail : Bool) : DB :=
  if fail then db
  else { db with summaries := upsertSummary db.summaries sid new_summary now }

/-- `ChatMemory.get_total_message_count()` (memory.py:199-210).
`SELECT COUNT(*) ...`; `except DatabaseError` returns `0`. -/
def get_total_message_count (db : DB) (sid : String) (fail : Bool) : Nat :=
  if fail then 0
  else (sessionMessages db sid).length

/-- One attempt of the body of `ChatMemory._call_summarization_api`
(memory.py:250-276): call the Gemini model; a `None` response text raises
`ValueError`; on text, store `response.text.strip()` via `update_summary`
(whose own storage failure is abstracted by `updFail`) and return normally. -/
def summarizationAttempt (db : DB) (sid : String) (now : Nat) (updFail : Bool)
    (current_summary : String) (messages : List ChatMsg)
    (api : String → List ChatMsg → Nat → Except String (Option String))
    (attempt : Nat) : Except String DB :=
  match api current_summary messages attempt with
  | Except.error e => Except.error e
  | Except.ok none => Except.error "Empty response from Gemini summarization API"
  | Except.ok (some t) => Except.ok (update_summary db sid t.trim now updFail)

/-- The loop of `retry_with_backoff` (memory.py:30-45), as a function of the
remaining fuel (`max_retries - attempt`) and the current `attempt` index.
Returns `(outcome, number of invocations of the wrapped call, slept delays)`;
the outcome is `none` exactly when the `for` loop finishes without returning
(Python then returns `None`, only possible with `max_retries = 0`). -/
def retryGo (f : Nat → Except String α) (base : ℚ) (maxRetries : Nat) :
    Nat → Nat → Option (Except String α) × Nat × List ℚ
  | 0, _ => (none, 0, [])
  | fuel + 1, attempt =>
    match f attempt with
    | Except.ok a => (some (Except.ok a), 1, [])
    | Except.error e =>
      if attempt + 1 = maxRetries then (some (Except.error e), 1, [])
      else
        let rest := retryGo f base maxRetries fuel (attempt + 1)
        (rest.1, rest.2.1 + 1, base * 2 ^ attempt :: rest.2.2)

/-- `retry_with_backoff(max_retries, base_delay)` applied to a fallible call
`f` (indexed by attempt number): run up to `maxRetries` attempts, re-raising
the error of attempt `maxRetries - 1`, sleeping `base * 2 ^ attempt` between
attempts. -/
def retry_with_backoff (maxRetries : Nat) (base : ℚ)
    (f : Nat → Except String α) : Option (Except String α) × Nat × List ℚ :=
  retryGo f base maxRetries maxRetries 0

/-- `ChatMemory._call_summarization_api(api_key, current_summary, messages)`
as invoked through its `@retry_with_backoff()` decorator with the default
`LLM_MAX_RETRIES` / `LLM_BASE_DELAY`. -/
def call_summarization_api (db : DB) (sid : String) (now : Nat)
    (updFail : Bool) (current_summary : String) (messages : List ChatMsg)
    (api : String → List ChatMsg → Nat → Except String (Option String)) :
    Option (Except String DB) × Nat × List ℚ :=
  retry_with_backoff LLM_MAX_RETRIES LLM_BASE_DELAY
    (summarizationAttempt db sid now updFail current_summary messages api)

/-- Python `x or default` on an optional string: `None` and `""` are falsy. -/
def pyOrString (s : Option String) (d : String) : String :=
  match s with
  | none => d
  | some t => if t = "" then d else t

/-- `ChatMemory.generate_summary(model_api_key)` (memory.py:212-248).
Threshold check, cutoff computation (`limit = count - MEMORY_BUFFER_SIZE` over
Python ints, modelled on `Int`), fetch of the oldest `limit` messages
(`ORDER BY timestamp ASC LIMIT ?`, `except DatabaseError: return`), then the
retry-wrapped summarization call, whose exhausted-retry error is NOT caught
here and so propagates (second component `some e`).  `countFail`,
`sumReadFail`, `histFail`, `updFail` abstract `DatabaseError` in the count
query, the summary read, the history fetch, and the summary write. -/
def generate_summary (db : DB) (sid : String) (uid : Option String)
    (countFail sumReadFail histFail updFail : Bool)
    (api : String → List ChatMsg → Nat → Except String (Option String))
    (now : Nat) : DB × Option String :=
  let count := get_total_message_count db sid countFail
  if count < MEMORY_SUMMARY_THRESHOLD then (db, none)
  else if count ≤ MEMORY_BUFFER_SIZE then (db, none)
  else
    let current_summary := pyOrString (get_summary db sid uid sumReadFail)
      "No previous summary."
    let limit : Int := (count : Int) - (MEMORY_BUFFER_SIZE : Int)
    if limit ≤ 0 then (db, none)
    else if histFail then (db, none)
    else
      let messages_to_summarize :=
        ((sessionMessages db sid).take limit.toNat).map rowToChatMsg
      if messages_to_summarize = [] then (db, none)
      else
        match call_summarization_api db sid now updFail current_summary
            messages_to_summarize api with
        | (some (Except.ok db'), _, _) => (db', none)
        | (some (Except.error e), _, _) => (db, some e)
        | (none, _, _) => (db, none)

/-- The synthetic long-term-memory entry of `build_context_window`. -/
def summaryCtxMsg (summary : String) : CtxMsg :=
  ⟨"user", ["LONG TERM MEMORY (PREVIOUS CONVERSATIONS):\n" ++ summary ++
    "\n\n(Use this to remember user context, orders, and name)"]⟩

/-- The synthetic acknowledgment entry of `build_context_window`. -/
def ackCtxMsg : CtxMsg :=
  ⟨"model", ["Understood. I have the context."]⟩

/-- `ChatMemory.build_context_window()` (memory.py:278-298).
If a (non-empty, Python truthiness) summary exists, prepend the synthetic
summary/acknowledgment pair; then append the recent history with assistant
turns re-tagged as `"model"`. -/
def build_context_window (db : DB) (sid : String) (uid : Option String)
    (sumFail histFail : Bool) : List CtxMsg :=
  let prefixMsgs : List CtxMsg :=
    match get_summary db sid uid sumFail with
    | some summary =>
      if summary = "" then []
      else [summaryCtxMsg summary, ackCtxMsg]
    | none => []
  let recent := get_recent_history db sid MEMORY_BUFFER_SIZE histFail
  prefixMsgs ++ recent.map (fun msg =>
    ⟨if msg.role = "assistant" then "model" else "user", [msg.content]⟩)

/-- Messages `m0 … m(n-1)` for one session, user/assistant alternating —
concrete data for the witnesses. -/
def sampleMsgs (sid : String) (n : Nat) : List MsgRow :=
  (List.range n).map (fun i =>
    ⟨sid, if i % 2 = 0 then "user" else "assistant", "m" ++ toString i⟩)

/-- A store holding one session `"s"` with 9 messages and no summary. -/
def dbNine : DB := ⟨[⟨"s", none⟩], sampleMsgs "s" 9, []⟩

/-- A store holding one session `"s"` with 10 messages and no summary. -/
def dbTen : DB := ⟨[⟨"s", none⟩], sampleMsgs "s" 10, []⟩

/-- Two sessions `A`, `B` sharing identity `"0300X"`; `A`'s summary updated at
time 1, `B`'s at time 2. -/
def dbGroup : DB :=
  ⟨[⟨"A", some "0300X"⟩, ⟨"B", some "0300X"⟩], [],
    [⟨"A", "SA", 1⟩, ⟨"B", "SB", 2⟩]⟩

/-- A summarization backend that raises on every attempt. -/
def apiFailAlways : String → List ChatMsg → Nat → Except String (Option String) :=
  fun _ _ _ => Except.error "API down"

/-- A summarization backend that succeeds immediately with text `"NEW"`. -/
def apiOkNew : String → List ChatMsg → Nat → Except String (Option String) :=
  fun _ _ _ => Except.ok (some "NEW")

/-- A summarization backend that fails on attempts 0 and 1 and succeeds on
attempt 2 with text `"MERGED"`. -/
def apiFlaky : String → List ChatMsg → Nat → Except String (Option String) :=
  fun _ _ attempt =>
    if attempt < 2 then Except.error "transient" else Except.ok (some "MERGED")

/-- A plain flaky call for the generic retry statement: fails twice, then 42. -/
def flakyCall : Nat → Except String Nat :=
  fun attempt => if attempt < 2 then Except.error "transient" else Except.ok 42

/-! ## Helper lemmas -/

/-- `ORDER BY timestamp DESC LIMIT k` followed by the Python `reversed(...)`
is the chronological tail of the session log: drop all but the last `k`. -/
theorem get_recent_history_eq_drop (db : DB) (sid : String) (k : Nat) :
    get_recent_history db sid k false =
      ((sessionMessages db sid).drop
        ((sessionMessages db sid).length - k)).map rowToChatMsg := by
  simp only [get_recent_history, Bool.false_eq_true, if_false]
  rw [← List.rtake_eq_reverse_take_reverse]
  rfl

/-- The recent-history window never exceeds the requested limit. -/
theorem get_recent_history_length_le (db : DB) (sid : String) (k : Nat)
    (fail : Bool) : (get_recent_history db sid k fail).length ≤ k := by
  cases fail with
  | true => simp [get_recent_history]
  | false =>
    simp only [get_recent_history, Bool.false_eq_true, if_false,
      List.length_map, List.length_reverse, List.length_take]
    omega

/-- The retry loop invokes the wrapped call at most `fuel` times. -/
theorem retryGo_count_le {α : Type} (f : Nat → Except String α) (base : ℚ)
    (m : Nat) : ∀ (fuel a : Nat), (retryGo f base m fuel a).2.1 ≤ fuel := by
  intro fuel
  induction fuel with
  | zero => intro a; simp [retryGo]
  | succ n ih =>
    intro a
    simp only [retryGo]
    cases hfa : f a with
    | ok x => simp
    | error e =>
      by_cases hm : a + 1 = m
      · simp [hm]
      · simp only [hm, if_false]
        have := ih (a + 1)
        omega

/-- Two failures followed by a success: the retry wrapper makes exactly three
invocations, sleeping `base` and then `2 * base`, and forwards the success. -/
theorem retry3_fail_fail_ok {α : Type} (base : ℚ) (f : Nat → Except String α)
    (e0 e1 : String) (a : α)
    (h0 : f 0 = Except.error e0) (h1 : f 1 = Except.error e1)
    (h2 : f 2 = Except.ok a) :
    retry_with_backoff 3 base f = (some (Except.ok a), 3, [base, 2 * base]) := by
  unfold retry_with_backoff
  rw [show (3 : Nat) = 2 + 1 from rfl, retryGo, h0]
  norm_num
  rw [retryGo, h1]
  norm_num
  rw [retryGo, h2]
  norm_num
  ring

/-- Constant failure: the retry wrapper makes exactly three invocations and
re-raises the error of the last one. -/
theorem retry3_always_fails {α : Type} (base : ℚ) (f : Nat → Except String α)
    (e : String) (h : ∀ a, f a = Except.error e) :
    retry_with_backoff 3 base f = (some (Except.error e), 3, [base, 2 * base]) := by
  unfold retry_with_backoff
  rw [show (3 : Nat) = 2 + 1 from rfl, retryGo, h 0]
  norm_num
  rw [retryGo, h 1]
  norm_num
  rw [retryGo, h 2]
  norm_num
  ring

/-- Unfolding lemma for `latestSummary` on a cons cell. -/
theorem latestSummary_cons (a : SumRow) (tl : List SumRow) :
    latestSummary (a :: tl) =
      match latestSummary tl with
      | none => some a
      | some m =>
        if a.last_updated < m.last_updated then some m else some a := rfl

/-- `latestSummary` over a cons whose tail has no row. -/
theorem latestSummary_cons_none {tl : List SumRow} (a : SumRow)
    (h : latestSummary tl = none) : latestSummary (a :: tl) = some a := by
  rw [latestSummary_cons, h]

/-- `latestSummary` over a cons whose tail has a best row. -/
theorem latestSummary_cons_some {tl : List SumRow} {m : SumRow} (a : SumRow)
    (h : latestSummary tl = some m) :
    latestSummary (a :: tl) =
      if a.last_updated < m.last_updated then some m else some a := by
  rw [latestSummary_cons, h]

/-- Replacing every row keyed `sid` leaves the first row found under that key
equal to the replacement. -/
theorem find?_map_replace (sid t : String) (now : Nat) :
    ∀ (l : List SumRow), l.any (fun r => r.sid == sid) = true →
      (l.map (fun r => if r.sid == sid then (⟨sid, t, now⟩ : SumRow) else r)).find?
        (fun r => r.sid == sid) = some ⟨sid, t, now⟩ := by
  intro l
  induction l with
  | nil => simp
  | cons a tl ih =>
    intro h
    by_cases ha : a.sid = sid
    · simp [ha]
    · have h' : tl.any (fun r => r.sid == sid) = true := by simpa [ha] using h
      simpa [ha] using ih h'

/-- `find?` on the upserted summary list always yields the fresh row. -/
theorem find?_upsertSummary (l : List SumRow) (sid t : String) (now : Nat) :
    (upsertSummary l sid t now).find? (fun r => r.sid == sid) =
      some ⟨sid, t, now⟩ := by
  unfold upsertSummary
  by_cases h : l.any (fun r => r.sid == sid) = true
  · rw [if_pos h]
    exact find?_map_replace sid t now l h
  · rw [if_neg h, List.find?_append]
    have hnone : l.find? (fun r => r.sid == sid) = none := by
      rw [List.find?_eq_none]
      intro x hx hpx
      exact h (List.any_eq_true.mpr ⟨x, hx, hpx⟩)
    rw [hnone]
    simp [List.find?]

/-- In-place replacement preserves how many rows carry the key. -/
theorem filter_map_replace_length (sid t : String) (now : Nat) :
    ∀ (l : List SumRow),
      ((l.map (fun r => if r.sid == sid then (⟨sid, t, now⟩ : SumRow) else r)).filter
        (fun r => r.sid == sid)).length =
      (l.filter (fun r => r.sid == sid)).length := by
  intro l
  induction l with
  | nil => simp
  | cons a tl ih =>
    by_cases ha : a.sid = sid
    · simpa [ha] using ih
    · simpa [ha] using ih

/-- After an upsert there is exactly one summary row under the key, provided
the table respected its primary key (at most one row) beforehand. -/
theorem filter_length_upsertSummary (l : List SumRow) (sid t : String)
    (now : Nat) (h : (l.filter (fun r => r.sid == sid)).length ≤ 1) :
    ((upsertSummary l sid t now).filter (fun r => r.sid == sid)).length = 1 := by
  unfold upsertSummary
  by_cases hany : l.any (fun r => r.sid == sid) = true
  · rw [if_pos hany, filter_map_replace_length]
    rcases List.any_eq_true.mp hany with ⟨x, hx, hpx⟩
    have hmem : x ∈ l.filter (fun r => r.sid == sid) :=
      List.mem_filter.mpr ⟨hx, hpx⟩
    have hpos : 0 < (l.filter (fun r => r.sid == sid)).length :=
      List.length_pos.mpr (List.ne_nil_of_mem hmem)
    omega
  · rw [if_neg hany, List.filter_append]
    have hnil : l.filter (fun r => r.sid == sid) = [] := by
      rw [List.filter_eq_nil_iff]
      intro x hx hpx
      exact hany (List.any_eq_true.mpr ⟨x, hx, hpx⟩)
    simp [hnil]

/-- A row returned by `latestSummary` belongs to the list. -/
theorem latestSummary_mem :
    ∀ {l : List SumRow} {m : SumRow}, latestSummary l = some m → m ∈ l := by
  intro l
  induction l with
  | nil => simp [latestSummary]
  | cons a tl ih =>
    intro m h
    cases htl : latestSummary tl with
    | none =>
      rw [latestSummary_cons_none a htl] at h
      simp only [Option.some.injEq] at h
      subst h
      exact List.mem_cons_self a tl
    | some mm =>
      rw [latestSummary_cons_some a htl] at h
      by_cases hlt : a.last_updated < mm.last_updated
      · rw [if_pos hlt] at h
        simp only [Option.some.injEq] at h
        subst h
        exact List.mem_cons_of_mem a (ih htl)
      · rw [if_neg hlt] at h
        simp only [Option.some.injEq] at h
        subst h
        exact List.mem_cons_self a tl

/-- When one row strictly dominates every other row's `last_updated`,
`latestSummary` (the `ORDER BY last_updated DESC LIMIT 1` model) returns it. -/
theorem latestSummary_strict_max :
    ∀ (l : List SumRow) (r : SumRow), r ∈ l →
      (∀ r' ∈ l, r' ≠ r → r'.last_updated < r.last_updated) →
      latestSummary l = some r := by
  intro l
  induction l with
  | nil => intro r hr; exact absurd hr (List.not_mem_nil r)
  | cons a tl ih =>
    intro r hr hmax
    rcases List.mem_cons.mp hr with rfl | hrtl
    · cases htl : latestSummary tl with
      | none => exact latestSummary_cons_none r htl
      | some m =>
        rw [latestSummary_cons_some r htl]
        have hm : m ∈ tl := latestSummary_mem htl
        by_cases hma : m = r
        · subst hma
          simp
        · have hlt : m.last_updated < r.last_updated :=
            hmax m (List.mem_cons_of_mem r hm) hma
          rw [if_neg (by omega)]
    · have htl : latestSummary tl = some r :=
        ih r hrtl (fun r' h' hne => hmax r' (List.mem_cons_of_mem a h') hne)
      rw [latestSummary_cons_some a htl]
      by_cases ha : a = r
      · subst ha
        simp
      · have hlt : a.last_updated < r.last_updated :=
          hmax a (List.mem_cons_self a tl) ha
        rw [if_pos hlt]

/-! ## Claim theorems -/

/-- Claim C2, counterexample: with an empty store, a failing write
(`DatabaseError` raised by the insert) leaves the store unchanged AND
`save_message` returns normally — no error reaches the caller, contradicting
the claim that a failed append propagates a storage error. -/
theorem save_message_counterexample :
    save_message ⟨[], [], []⟩ "s1" "user" "hello" true = (⟨[], [], []⟩, none) := rfl

/-- Claim C2 (corrected): `save_message` catches `DatabaseError`, logs it and
returns normally, so a failed write is silently swallowed (the message is
lost and processing proceeds); on a successful write the message is appended.
The second component (the propagated exception) is `none` in both cases. -/
theorem save_message_swallows_storage_error (db : DB)
    (sid role content : String) :
    save_message db sid role content true = (db, none) ∧
    save_message db sid role content false =
      ({ db with messages := db.messages ++ [⟨sid, role, content⟩] }, none) :=
  ⟨rfl, rfl⟩

/-- Claim C7 (confirmed): for a session with `N` stored turns,
`get_recent_history k` returns exactly the last `min k N` turns in
chronological order (the session log being ordered by `created_at` with ties
broken by the surrogate key — the insertion order of the embedding). -/
theorem get_recent_history_last_min (db : DB) (sid : String) (k : Nat) :
    get_recent_history db sid k false =
      ((sessionMessages db sid).drop
        ((sessionMessages db sid).length - k)).map rowToChatMsg ∧
    (get_recent_history db sid k false).length =
      min k (sessionMessages db sid).length := by
  constructor
  · exact get_recent_history_eq_drop db sid k
  · rw [get_recent_history_eq_drop db sid k]
    simp only [List.length_map, List.length_drop]
    omega

/-- Claim C9 (confirmed): every read of `ChatMemory` degrades to a neutral
default when the underlying query raises `DatabaseError`: empty histories,
no summary, count `0` — and consequently a failure while counting makes
`generate_summary` skip compaction silently (it returns with the store
untouched and no exception). -/
theorem reads_degrade_to_defaults (db : DB) (sid : String) (uid : Option String)
    (k : Nat) (f2 f3 f4 : Bool)
    (api : String → List ChatMsg → Nat → Except String (Option String))
    (now : Nat) :
    get_recent_history db sid k true = [] ∧
    get_all_history db sid true = [] ∧
    get_summary db sid uid true = none ∧
    get_total_message_count db sid true = 0 ∧
    generate_summary db sid uid true f2 f3 f4 api now = (db, none) :=
  ⟨rfl, rfl, rfl, rfl, rfl⟩

/-- Claim C10 (confirmed): the context window holds at most
`MEMORY_BUFFER_SIZE + 2` entries — at most the two synthetic preamble entries
plus at most `MEMORY_BUFFER_SIZE` recent turns. -/
theorem build_context_window_bounded (db : DB) (sid : String)
    (uid : Option String) (f1 f2 : Bool) :
    (build_context_window db sid uid f1 f2).length ≤ MEMORY_BUFFER_SIZE + 2 := by
  have h := get_recent_history_length_le db sid MEMORY_BUFFER_SIZE f2
  cases hs : get_summary db sid uid f1 with
  | none =>
    simp only [build_context_window, hs, List.nil_append, List.length_map]
    omega
  | some s =>
    simp only [build_context_window, hs, List.length_append, List.length_map]
    split_ifs with he
    · simp only [List.length_nil]
      omega
    · simp only [List.length_cons, List.length_nil]
      omega

/-- Claim C4 (confirmed): the context window is exactly the synthetic
summary/acknowledgment pair (present precisely when a summary exists and is
non-empty — Python truthiness — and preceded by nothing) followed by the most
recent `min MEMORY_BUFFER_SIZE N` raw turns of the session, verbatim, in
chronological order, with assistant turns re-tagged as `"model"`; this holds
for every store, whether or not compaction ever ran. -/
theorem build_context_window_structure (db : DB) (sid : String)
    (uid : Option String) :
    build_context_window db sid uid false false =
      (match get_summary db sid uid false with
       | some s => if s = "" then [] else [summaryCtxMsg s, ackCtxMsg]
       | none => []) ++
      ((sessionMessages db sid).drop
        ((sessionMessages db sid).length - MEMORY_BUFFER_SIZE)).map
        (fun m => ⟨if m.role = "assistant" then "model" else "user",
          [m.content]⟩) := by
  simp only [build_context_window, get_recent_history_eq_drop, List.map_map]
  rfl

/-- Claim C5 (confirmed): with a known identity, `get_summary` resolves across
the identity group: the summary row whose `last_updated` strictly dominates
all other rows joined to sessions of that identity is returned, whatever
session is asking; with no identity the session-local row is read. -/
theorem get_summary_identity_group (db : DB) (sid : String) (u : String)
    (r : SumRow) (hr : r ∈ identityGroupSummaries db u)
    (hmax : ∀ r' ∈ identityGroupSummaries db u,
      r' ≠ r → r'.last_updated < r.last_updated) :
    get_summary db sid (some u) false = some r.summary ∧
    (∀ sid', get_summary db sid' none false =
      (db.summaries.find? (fun x => x.sid == sid')).map (fun x => x.summary)) := by
  constructor
  · have hl : latestSummary (identityGroupSummaries db u) = some r :=
      latestSummary_strict_max _ r hr hmax
    simp only [get_summary, hl, Bool.false_eq_true, if_false]
  · intro sid'
    rfl

/-- Claim C5, witness: sessions `A` and `B` share identity `"0300X"`, `A`'s
summary was updated at time 1 and `B`'s at time 2; both sessions resolve to
`B`'s text. -/
theorem get_summary_identity_group_witness :
    get_summary dbGroup "A" (some "0300X") false = some "SB" ∧
    get_summary dbGroup "B" (some "0300X") false = some "SB" :=
  ⟨(get_summary_identity_group dbGroup "A" "0300X" ⟨"B", "SB", 2⟩
      (by decide) (by decide)).1,
   (get_summary_identity_group dbGroup "B" "0300X" ⟨"B", "SB", 2⟩
      (by decide) (by decide)).1⟩

/-- Claim C8 (confirmed): with no identity set, storing `"S1"` and reading
back returns exactly `"S1"`; a second store of `"S2"` overwrites wholesale and
reads back `"S2"`; and provided the table respected its primary key before
(at most one row for the session), there is exactly one summary row after
each store — never an appended second row. -/
theorem update_summary_roundtrip (db : DB) (sid : String) (s1 s2 : String)
    (n1 n2 : Nat)
    (h : (db.summaries.filter (fun r => r.sid == sid)).length ≤ 1) :
    get_summary (update_summary db sid s1 n1 false) sid none false = some s1 ∧
    get_summary (update_summary (update_summary db sid s1 n1 false) sid s2 n2
      false) sid none false = some s2 ∧
    ((update_summary db sid s1 n1 false).summaries.filter
      (fun r => r.sid == sid)).length = 1 ∧
    ((update_summary (update_summary db sid s1 n1 false) sid s2 n2
      false).summaries.filter (fun r => r.sid == sid)).length = 1 := by
  have g : ∀ (d : DB), get_summary d sid none false =
      (d.summaries.find? (fun x => x.sid == sid)).map (fun x => x.summary) :=
    fun d => rfl
  have h1 : (update_summary db sid s1 n1 false).summaries =
      upsertSummary db.summaries sid s1 n1 := rfl
  have h2 : (update_summary (update_summary db sid s1 n1 false) sid s2 n2
      false).summaries =
      upsertSummary (upsertSummary db.summaries sid s1 n1) sid s2 n2 := rfl
  have hlen1 : ((upsertSummary db.summaries sid s1 n1).filter
      (fun r => r.sid == sid)).length = 1 :=
    filter_length_upsertSummary _ _ _ _ h
  refine ⟨?_, ?_, ?_, ?_⟩
  · rw [g, h1, find?_upsertSummary]
    rfl
  · rw [g, h2, find?_upsertSummary]
    rfl
  · rw [h1]
    exact hlen1
  · rw [h2]
    exact filter_length_upsertSummary _ _ _ _ (le_of_eq hlen1)

/-- Claim C8, witness: the round trip on an initially empty store. -/
theorem update_summary_roundtrip_witness :
    get_summary (update_summary ⟨[], [], []⟩ "s" "S1" 1 false) "s" none false =
      some "S1" ∧
    get_summary (update_summary (update_summary ⟨[], [], []⟩ "s" "S1" 1 false)
      "s" "S2" 2 false) "s" none false = some "S2" :=
  ⟨(update_summary_roundtrip ⟨[], [], []⟩ "s" "S1" "S2" 1 2 (by decide)).1,
   (update_summary_roundtrip ⟨[], [], []⟩ "s" "S1" "S2" 1 2 (by decide)).2.1⟩

/-- Claim C6 (confirmed): the retry policy invokes the wrapped call at most
`LLM_MAX_RETRIES` (3) times, sleeping `base * 2 ^ attempt` between attempts;
when the call fails twice then succeeds it is invoked exactly 3 times with
delays `base` and `2 * base`, and for the summarization site the summary is
stored (`update_summary` applied) only through the 3rd, successful attempt. -/
theorem retry_policy_spec {α : Type} (base : ℚ) (f : Nat → Except String α)
    (e0 e1 : String) (a : α)
    (hf0 : f 0 = Except.error e0) (hf1 : f 1 = Except.error e1)
    (hf2 : f 2 = Except.ok a)
    (db : DB) (sid : String) (now : Nat) (updFail : Bool)
    (current : String) (msgs : List ChatMsg) (t : String)
    (api : String → List ChatMsg → Nat → Except String (Option String))
    (h0 : api current msgs 0 = Except.error e0)
    (h1 : api current msgs 1 = Except.error e1)
    (h2 : api current msgs 2 = Except.ok (some t)) :
    retry_with_backoff LLM_MAX_RETRIES base f =
      (some (Except.ok a), 3, [base, 2 * base]) ∧
    call_summarization_api db sid now updFail current msgs api =
      (some (Except.ok (update_summary db sid t.trim now updFail)), 3,
        [LLM_BASE_DELAY, 2 * LLM_BASE_DELAY]) ∧
    (∀ (g : Nat → Except String α),
      (retry_with_backoff LLM_MAX_RETRIES base g).2.1 ≤ LLM_MAX_RETRIES) := by
  refine ⟨?_, ?_, ?_⟩
  · exact retry3_fail_fail_ok base f e0 e1 a hf0 hf1 hf2
  · exact retry3_fail_fail_ok LLM_BASE_DELAY
      (summarizationAttempt db sid now updFail current msgs api) e0 e1 _
      (by simp [summarizationAttempt, h0]) (by simp [summarizationAttempt, h1])
      (by simp [summarizationAttempt, h2])
  · intro g
    exact retryGo_count_le g base LLM_MAX_RETRIES LLM_MAX_RETRIES 0

/-- Claim C6, witness: a call failing on attempts 0 and 1 and succeeding on
attempt 2 runs exactly three times with the documented delays, and the
summarization site stores the merged summary. -/
theorem retry_policy_spec_witness :
    retry_with_backoff LLM_MAX_RETRIES 1 flakyCall =
      (some (Except.ok 42), 3, [1, 2 * 1]) ∧
    call_summarization_api ⟨[], [], []⟩ "s" 7 false "cur" [] apiFlaky =
      (some (Except.ok (update_summary ⟨[], [], []⟩ "s" "MERGED".trim 7 false)),
        3, [LLM_BASE_DELAY, 2 * LLM_BASE_DELAY]) := by
  have h := retry_policy_spec 1 flakyCall "transient" "transient" 42 rfl rfl rfl
    ⟨[], [], []⟩ "s" 7 false "cur" [] "MERGED" apiFlaky rfl rfl rfl
  exact ⟨h.1, h.2.1⟩

/-- Claim C1, counterexample: a session holding 10 messages, a summarization
backend failing on every attempt — `generate_summary` does NOT return
normally: the final retry error propagates out (second component
`some "API down"`), contradicting the claim that compaction aborts silently
with no exception reaching the caller. -/
theorem generate_summary_raises_counterexample :
    (generate_summary dbTen "s" none false false false false apiFailAlways 0).2 =
      some "API down" := rfl

/-- Claim C1 (corrected): when the summarization call fails on every retry
attempt, the stored summary (indeed the whole store) is unchanged and
compaction is deferred — but `generate_summary` does not swallow the failure:
`retry_with_backoff` re-raises the last error and `generate_summary` has no
handler around `_call_summarization_api`, so the exception propagates to the
caller of the chat turn. -/
theorem generate_summary_exhausted_retries (db : DB) (sid : String)
    (uid : Option String) (sumReadFail updFail : Bool) (e : String) (now : Nat)
    (hcount : MEMORY_SUMMARY_THRESHOLD ≤ (sessionMessages db sid).length) :
    generate_summary db sid uid false sumReadFail false updFail
      (fun _ _ _ => Except.error e) now = (db, some e) := by
  have hlen : get_total_message_count db sid false =
      (sessionMessages db sid).length := rfl
  have hT : MEMORY_SUMMARY_THRESHOLD = 10 := rfl
  have hB : MEMORY_BUFFER_SIZE = 6 := rfl
  set N := (sessionMessages db sid).length with hNdef
  rw [hT] at hcount
  simp only [generate_summary, hlen, hT, hB, Bool.false_eq_true, if_false]
  rw [if_neg (by omega), if_neg (by omega), if_neg (by omega)]
  have hne : ¬ ((((sessionMessages db sid).take
      (((N : Int) - ((6 : Nat) : Int)).toNat)).map rowToChatMsg) = []) := by
    simp only [List.map_eq_nil_iff, List.take_eq_nil_iff, not_or]
    constructor
    · omega
    · intro hnil
      have : N = 0 := by
        rw [hNdef, hnil]
        rfl
      omega
  rw [if_neg hne]
  have hcall := retry3_always_fails LLM_BASE_DELAY
    (summarizationAttempt db sid now updFail
      (pyOrString (get_summary db sid uid sumReadFail) "No previous summary.")
      ((((sessionMessages db sid).take
        (((N : Int) - ((6 : Nat) : Int)).toNat)).map rowToChatMsg))
      (fun _ _ _ => Except.error e)) e (fun _ => rfl)
  rw [show call_summarization_api db sid now updFail
      (pyOrString (get_summary db sid uid sumReadFail) "No previous summary.")
      ((((sessionMessages db sid).take
        (((N : Int) - ((6 : Nat) : Int)).toNat)).map rowToChatMsg))
      (fun _ _ _ => Except.error e) =
      (some (Except.error e), 3, [LLM_BASE_DELAY, 2 * LLM_BASE_DELAY])
    from hcall]

/-- Claim C1, witness for the corrected statement: the concrete 10-message
session with an always-failing backend. -/
theorem generate_summary_exhausted_retries_witness :
    generate_summary dbTen "s" none false false false false
      (fun _ _ _ => Except.error "boom") 0 = (dbTen, some "boom") :=
  generate_summary_exhausted_retries dbTen "s" none false false "boom" 0
    (by decide)

/-- Immediate success: the retry wrapper makes one invocation and no sleeps. -/
theorem retry3_first_success {α : Type} (base : ℚ) (f : Nat → Except String α)
    (a : α) (h0 : f 0 = Except.ok a) :
    retry_with_backoff 3 base f = (some (Except.ok a), 1, []) := by
  unfold retry_with_backoff
  rw [show (3 : Nat) = 2 + 1 from rfl, retryGo, h0]

/-- Claim C3 (confirmed): with `BUFFER_SIZE = 6` and `SUMMARY_THRESHOLD = 10`,
a session below 10 messages is never summarized (`generate_summary` returns
with the store untouched, so `update_summary` is never reached); at exactly 10
messages the cutoff is `10 - 6 = 4`, the backend is invoked on precisely the 4
oldest turns (oldest-first), on success exactly one summary row exists for the
session, and the 6 most recent turns are still returned verbatim by
`get_recent_history`. -/
theorem generate_summary_threshold (db : DB) (sid : String) (uid : Option String)
    (api : String → List ChatMsg → Nat → Except String (Option String))
    (now : Nat) (t : String) :
    ((sessionMessages db sid).length < MEMORY_SUMMARY_THRESHOLD →
      generate_summary db sid uid false false false false api now = (db, none)) ∧
    ((sessionMessages db sid).length = MEMORY_SUMMARY_THRESHOLD →
     (db.summaries.filter (fun r => r.sid == sid)).length ≤ 1 →
     api (pyOrString (get_summary db sid uid false) "No previous summary.")
        (((sessionMessages db sid).take 4).map rowToChatMsg) 0 =
          Except.ok (some t) →
      generate_summary db sid uid false false false false api now =
        (update_summary db sid t.trim now false, none) ∧
      ((update_summary db sid t.trim now false).summaries.filter
        (fun r => r.sid == sid)).length = 1 ∧
      get_recent_history (update_summary db sid t.trim now false) sid
        MEMORY_BUFFER_SIZE false =
        ((sessionMessages db sid).drop 4).map rowToChatMsg) := by
  have hlen : get_total_message_count db sid false =
      (sessionMessages db sid).length := rfl
  have hT : MEMORY_SUMMARY_THRESHOLD = 10 := rfl
  have hB : MEMORY_BUFFER_SIZE = 6 := rfl
  constructor
  · intro h
    have hc : get_total_message_count db sid false < MEMORY_SUMMARY_THRESHOLD := h
    simp only [generate_summary]
    rw [if_pos hc]
  · intro heq hsum happi
    refine ⟨?_, ?_, ?_⟩
    · simp only [generate_summary, hlen, hT, hB, Bool.false_eq_true, if_false,
        heq]
      rw [if_neg (by norm_num), if_neg (by norm_num), if_neg (by decide)]
      rw [show ((((10 : Nat) : Int) - ((6 : Nat) : Int)).toNat) = 4 from by decide]
      have hne : ¬ ((((sessionMessages db sid).take 4).map rowToChatMsg) = []) := by
        simp only [List.map_eq_nil_iff, List.take_eq_nil_iff, not_or]
        refine ⟨by norm_num, ?_⟩
        intro hnil
        rw [hnil, hT] at heq
        simp only [List.length_nil] at heq
        omega
      rw [if_neg hne]
      have hstep : summarizationAttempt db sid now false
          (pyOrString (get_summary db sid uid false) "No previous summary.")
          (((sessionMessages db sid).take 4).map rowToChatMsg) api 0 =
          Except.ok (update_summary db sid t.trim now false) := by
        rw [summarizationAttempt, happi]
      rw [show call_summarization_api db sid now false
          (pyOrString (get_summary db sid uid false) "No previous summary.")
          (((sessionMessages db sid).take 4).map rowToChatMsg) api =
          (some (Except.ok (update_summary db sid t.trim now false)), 1, [])
        from retry3_first_success LLM_BASE_DELAY _ _ hstep]
    · exact filter_length_upsertSummary _ _ _ _ hsum
    · rw [get_recent_history_eq_drop]
      have hmsg : sessionMessages (update_summary db sid t.trim now false) sid =
          sessionMessages db sid := rfl
      rw [hmsg, heq, hT, hB]

/-- Claim C3, witness: 9 messages — no compaction; exactly 10 messages — the
4 oldest turns are summarized into one stored row, computed on the concrete
sample store. -/
theorem generate_summary_threshold_witness :
    generate_summary dbNine "s" none false false false false apiOkNew 7 =
      (dbNine, none) ∧
    generate_summary dbTen "s" none false false false false apiOkNew 7 =
      (update_summary dbTen "s" "NEW".trim 7 false, none) :=
  ⟨(generate_summary_threshold dbNine "s" none apiOkNew 7 "NEW").1 (by decide),
   ((generate_summary_threshold dbTen "s" none apiOkNew 7 "NEW").2 (by decide)
      (by decide) rfl).1⟩
